import Mathlib

/-!
Verification of the adaptive retrieval pipeline in `src/main.py` (class
`RAGSystem`).  The Python source is shallowly embedded: pure helpers become
Lean functions, external collaborators (Weaviate, the embedding model) become
explicit response environments, floats become rationals, and Python `dict.get`
defaults become explicit `Option` matches.
-/

namespace RagSystem

/-! ### Process-wide configuration (main.py lines 49-51) -/

/-- `self.default_limit = 5`. -/
def default_limit : Nat := 5

/-- `self.max_limit = 15`. -/
def max_limit : Nat := 15

/-- `self.similarity_threshold = 0.3`. -/
def similarity_threshold : ℚ := 3/10

/-! ### Substring matching

Python's `keyword in query_lower` is a substring-containment test.  We model
strings by their character lists and define containment executably. -/

/-- `needle` is a prefix of `hay` (character lists). -/
def isPrefixCh : List Char → List Char → Bool
  | [], _ => true
  | _ :: _, [] => false
  | a :: as, b :: bs => a == b && isPrefixCh as bs

/-- `needle` occurs as a contiguous substring of `hay` (Python `in` on `str`). -/
def isSubstrCh (needle : List Char) : List Char → Bool
  | [] => isPrefixCh needle []
  | b :: bs => isPrefixCh needle (b :: bs) || isSubstrCh needle bs

/-- Python `kw in hay` for strings. -/
def strContains (hay kw : String) : Bool := isSubstrCh kw.data hay.data

/-- Python `str.lower()` (ASCII case mapping, as in all queries considered). -/
def toLowerStr (s : String) : String := ⟨s.data.map Char.toLower⟩

/-! ### ComplexityScorer (main.py `determine_search_complexity`, lines 352-402) -/

/-- `complex_keywords` (main.py lines 357-362). -/
def complex_keywords : List String :=
  ["compare", "comparison", "different", "various", "all", "complete",
   "comprehensive", "detailed", "explain", "describe", "overview",
   "history", "evolution", "development", "significance", "importance",
   "relationship", "connection", "between", "among", "multiple"]

/-- `specific_keywords` (main.py lines 365-368). -/
def specific_keywords : List String :=
  ["what is", "who is", "when", "where", "definition", "meaning",
   "quote", "verse", "chapter", "specific", "particular"]

/-- `broad_keywords` (main.py lines 371-375). -/
def broad_keywords : List String :=
  ["dharma", "karma", "moksha", "liberation", "enlightenment",
   "consciousness", "divine", "god", "brahman", "atman", "soul",
   "meditation", "yoga", "devotion", "bhakti", "wisdom", "knowledge"]

/-- The accumulated `complexity_score` of main.py lines 377-392: +2 for each
complex keyword contained in the lowercased query, +1 for each broad keyword,
-1 for each specific keyword.  Each `for kw: if kw in query_lower` loop is a
fold; the `in` test fires at most once per keyword. -/
def complexity_score (query : String) : Int :=
  let ql := toLowerStr query
  let s1 : Int := complex_keywords.foldl
    (fun s kw => if strContains ql kw then s + 2 else s) 0
  let s2 : Int := broad_keywords.foldl
    (fun s kw => if strContains ql kw then s + 1 else s) s1
  specific_keywords.foldl
    (fun s kw => if strContains ql kw then s - 1 else s) s2

/-- `determine_search_complexity` (main.py lines 394-402): map the score to a
source count through fixed thresholds. -/
def determine_search_complexity (query : String) : Nat :=
  let c := complexity_score query
  if c ≥ 4 then min max_limit 12
  else if c ≥ 2 then min max_limit 8
  else if c ≥ 0 then default_limit
  else 3

/-- The limit actually used by `search_documents` (main.py lines 464-465): the
caller-supplied limit verbatim when present, otherwise the complexity-derived
target.  No clamping is applied. -/
def effective_limit (lim? : Option Nat) (query : String) : Nat :=
  lim?.getD (determine_search_complexity query)

/-- The interactive-mode `sources <n>` command (main.py lines 688-697): the
override is replaced by `n` only when `1 <= n <= rag.max_limit`; otherwise an
error is printed and the previous override is kept. -/
def sources_command (cur : Option Nat) (n : Nat) : Option Nat :=
  if 1 ≤ n ∧ n ≤ max_limit then some n else cur

/-! ### Data model

A candidate document as returned by the Weaviate query (main.py lines
486-493): the stored fields plus the `_additional` metrics.  Python reads the
metrics with `doc["_additional"].get(key, default)`, so a key can be absent
(the `get` default applies) or present with value `None` (JSON null) or
present with a number; we model the distance field as `Option (Option ℚ)`
(`none` = key absent, `some none` = null, `some (some d)` = number `d`).  The
code never branches on a null certainty separately from an absent one, so
certainty is `Option ℚ` (`none` = absent, defaulting to `0.0`). -/

structure Candidate where
  content : String
  source : String
  page : Int
  category : String
  distance : Option (Option ℚ)
  certainty : Option ℚ
  deriving DecidableEq, Repr

/-- A candidate together with the `doc["similarity"]` value the filter loop
writes into it (main.py line 541). -/
structure ScoredDoc where
  doc : Candidate
  similarity : ℚ
  deriving DecidableEq, Repr

/-- A document as returned to the caller of `search_documents`: vector-path
entries carry a `similarity` key, keyword-fallback entries do not. -/
structure RDoc where
  doc : Candidate
  similarity : Option ℚ
  deriving DecidableEq, Repr

/-- `distance = doc["_additional"].get("distance", 1.0)` (main.py line 530):
the Python variable holds `1.0` when the key is absent, otherwise the stored
value (possibly `None`). -/
def pyDistance (c : Candidate) : Option ℚ :=
  match c.distance with
  | none => some 1
  | some v => v

/-- `certainty = doc["_additional"].get("certainty", 0.0)` (main.py line 531). -/
def pyCertainty (c : Candidate) : ℚ := c.certainty.getD 0

/-- `similarity = 1 - distance if distance is not None else certainty`
(main.py line 532). -/
def derivedSimilarity (c : Candidate) : ℚ :=
  match pyDistance c with
  | some d => 1 - d
  | none => pyCertainty c

/-- `source_key = f"{doc['source']}-{doc['page']}"` (main.py line 537). -/
def sourceKey (c : Candidate) : String :=
  c.source ++ "-" ++ toString c.page

/-- The comparison used by `filtered_docs.sort(key=..., reverse=True)`
(main.py line 553): descending similarity, stable on ties. -/
def simLe (a b : ScoredDoc) : Bool := decide (b.similarity ≤ a.similarity)

/-! ### Retriever filter loop (main.py lines 523-550) -/

/-- The filter/dedup loop of main.py lines 528-550, iterating candidates in
index order: a candidate is appended when its similarity is at least
`min_similarity` and its source key has not been seen; after an append that
brings the accepted count (`count + 1`) to at least `limit`, the loop breaks. -/
def filter_dedup (minSim : ℚ) (limit : Nat) :
    List Candidate → List String → Nat → List ScoredDoc
  | [], _, _ => []
  | c :: rest, seen, count =>
    if minSim ≤ derivedSimilarity c ∧ sourceKey c ∉ seen then
      if limit ≤ count + 1 then [⟨c, derivedSimilarity c⟩]
      else ⟨c, derivedSimilarity c⟩ ::
        filter_dedup minSim limit rest (sourceKey c :: seen) (count + 1)
    else filter_dedup minSim limit rest seen count

/-- The same filter/dedup pass with no early stop: every eligible,
not-yet-seen candidate is accepted.  Used to relate the loop to the
spec's conservative reference algorithm. -/
def filter_all (minSim : ℚ) : List Candidate → List String → List ScoredDoc
  | [], _ => []
  | c :: rest, seen =>
    if minSim ≤ derivedSimilarity c ∧ sourceKey c ∉ seen then
      ⟨c, derivedSimilarity c⟩ :: filter_all minSim rest (sourceKey c :: seen)
    else filter_all minSim rest seen

/-- The vector-path result of `search_documents` for a non-empty raw candidate
list (main.py lines 523-556): filter/dedup with early stop, then sort by
similarity descending, then `[:limit]`. -/
def vector_path (minSim : ℚ) (limit : Nat) (documents : List Candidate) :
    List ScoredDoc :=
  ((filter_dedup minSim limit documents [] 0).mergeSort simLe).take limit

/-- Reference algorithm, following the spec's words (§4.2 Step 3-4 resolved
conservatively): accept all eligible, deduplicated candidates (up to the
over-fetch size, which is no constraint), sort by similarity descending, then
truncate to the target.  This definition comes from the spec text, not the
source; claim C5 compares `vector_path` against it. -/
def reference_vector_path (minSim : ℚ) (limit : Nat)
    (documents : List Candidate) : List ScoredDoc :=
  ((filter_all minSim documents []).mergeSort simLe).take limit

/-! ### The external collaborators and `search_documents` (main.py lines 460-562)

External calls are modelled by a response environment: each field records the
outcome of the corresponding network call during one `search_documents`
invocation.  `Except.error` models a raised exception; the Weaviate query
responses additionally model a malformed body (missing `data`/`Get`/
`SpiritualText` keys) as `Except.ok none`.  The two query calls take the limit
the code passes them. -/

structure SearchEnv where
  /-- `self.weaviate_client.schema.get()` in `debug_weaviate_data`. -/
  schemaClasses : Except String (List String)
  /-- the aggregate `meta.count` in `debug_weaviate_data`. -/
  docCount : Except String Nat
  /-- whether the sample-document fetch in `debug_weaviate_data` succeeds. -/
  sampleOk : Bool
  /-- `self.embeddings.embed_query(query)`. -/
  embed : Except String (List ℚ)
  /-- the near-vector query, as a function of the `with_limit` argument. -/
  nearVector : Nat → Except String (Option (List Candidate))
  /-- the bm25 keyword query, as a function of the `with_limit` argument. -/
  keyword : Nat → Except String (Option (List Candidate))

/-- `debug_weaviate_data` (main.py lines 128-173): `False` when the schema
fetch raises, the `SpiritualText` class is absent, the count fetch raises, the
count is zero, or the sample fetch raises; `True` otherwise.  Every raised
exception is caught and turned into `False` by the function's own handler. -/
def debug_weaviate_data (env : SearchEnv) : Bool :=
  match env.schemaClasses with
  | .error _ => false
  | .ok classes =>
    if ¬ classes.contains "SpiritualText" then false
    else
      match env.docCount with
      | .error _ => false
      | .ok count =>
        if count = 0 then false
        else env.sampleOk

/-- `search_documents` (main.py lines 460-562).  The whole body sits in a
`try/except Exception` that returns `[]` (lines 558-562), so every modelled
exception maps to `[]`.  Control flow in order: resolve the limit and
threshold defaults, bail out on a failed data check, embed the query, issue
the near-vector search with `limit * 3`, bail out on a malformed response,
take the keyword fallback when zero raw candidates came back, otherwise run
the filter/dedup/sort/truncate pipeline. -/
def search_documents (env : SearchEnv) (query : String)
    (lim? : Option Nat) (minSim? : Option ℚ) : List RDoc :=
  let limit := effective_limit lim? query
  let minSim := minSim?.getD similarity_threshold
  if ¬ debug_weaviate_data env then []
  else
    match env.embed with
    | .error _ => []
    | .ok _ =>
      match env.nearVector (limit * 3) with
      | .error _ => []
      | .ok none => []
      | .ok (some documents) =>
        if documents.isEmpty then
          match env.keyword limit with
          | .error _ => []
          | .ok none => []
          | .ok (some fallbackDocs) =>
            (fallbackDocs.take limit).map fun c => ⟨c, none⟩
        else
          (vector_path minSim limit documents).map fun s =>
            ⟨s.doc, some s.similarity⟩

/-! ### Concrete candidates and environments used to instantiate theorems -/

/-- A candidate with distance 0.5 (similarity 0.5). -/
def cA : Candidate := ⟨"a", "s1", 1, "cat", some (some (1/2)), none⟩

/-- A candidate with distance 0.1 (similarity 0.9), distinct source key. -/
def cB : Candidate := ⟨"b", "s2", 1, "cat", some (some (1/10)), none⟩

/-- A candidate whose `_additional` map has no `distance` key at all but does
carry a certainty of 0.9. -/
def cNoDist : Candidate := ⟨"x", "s3", 2, "cat", none, some (9/10)⟩

/-- A healthy environment whose near-vector search returns `[cA, cB]`. -/
def envA : SearchEnv :=
  ⟨.ok ["SpiritualText"], .ok 1, true, .ok [1],
   fun _ => .ok (some [cA, cB]), fun _ => .ok (some [])⟩

/-- A healthy environment except that the near-vector search raises. -/
def envErr : SearchEnv :=
  ⟨.ok ["SpiritualText"], .ok 1, true, .ok [1],
   fun _ => .error "connection refused", fun _ => .ok (some [])⟩

/-- A fully reachable environment with no matches anywhere. -/
def envEmpty : SearchEnv :=
  ⟨.ok ["SpiritualText"], .ok 1, true, .ok [1],
   fun _ => .ok (some []), fun _ => .ok (some [])⟩

/-- A reachable environment whose vector search finds nothing but whose
keyword search returns `[cA]`. -/
def envFallback : SearchEnv :=
  ⟨.ok ["SpiritualText"], .ok 1, true, .ok [1],
   fun _ => .ok (some []), fun _ => .ok (some [cA])⟩

/-- An environment whose index holds zero documents (pre-ingestion). -/
def envNoData : SearchEnv :=
  ⟨.ok ["SpiritualText"], .ok 0, true, .ok [1],
   fun _ => .ok (some [cA, cB]), fun _ => .ok (some [cA])⟩

/-! ### Lemmas about the filter loop -/

/-- The early-stopping loop is a prefix of the no-stop pass: it accepts the
first `max (limit - count) 1` elements `filter_all` would accept (at least one,
because the source checks `len(filtered_docs) >= limit` only after appending). -/
theorem filter_dedup_eq_take (minSim : ℚ) (limit : Nat) :
    ∀ (l : List Candidate) (seen : List String) (count : Nat),
    filter_dedup minSim limit l seen count =
      (filter_all minSim l seen).take (max (limit - count) 1) := by
  intro l
  induction l with
  | nil => intro seen count; simp [filter_dedup, filter_all]
  | cons c rest ih =>
    intro seen count
    by_cases h : minSim ≤ derivedSimilarity c ∧ sourceKey c ∉ seen
    · by_cases hl : limit ≤ count + 1
      · have hm : max (limit - count) 1 = 1 := by omega
        simp [filter_dedup, filter_all, h, hl, hm]
      · obtain ⟨k, hk⟩ : ∃ k, limit - count = k + 2 := ⟨limit - count - 2, by omega⟩
        have hm : max (limit - count) 1 = k + 2 := by omega
        have hm2 : max (limit - (count + 1)) 1 = k + 1 := by omega
        simp only [filter_dedup, filter_all, if_pos h, if_neg hl, ih, hm, hm2,
          List.take_succ_cons]
    · simp only [filter_dedup, filter_all, if_neg h, ih]

/-- Elements produced by `filter_all` come from the input list and carry their
derived similarity. -/
theorem mem_filter_all {minSim : ℚ} :
    ∀ {l : List Candidate} {seen : List String} {y : ScoredDoc},
    y ∈ filter_all minSim l seen →
    y.doc ∈ l ∧ y.similarity = derivedSimilarity y.doc := by
  intro l
  induction l with
  | nil => intro seen y hy; simp [filter_all] at hy
  | cons c rest ih =>
    intro seen y hy
    by_cases h : minSim ≤ derivedSimilarity c ∧ sourceKey c ∉ seen
    · rw [filter_all, if_pos h] at hy
      rcases List.mem_cons.mp hy with h1 | h1
      · subst h1; exact ⟨List.mem_cons_self _ _, rfl⟩
      · obtain ⟨hmem, hsim⟩ := ih h1
        exact ⟨List.mem_cons_of_mem _ hmem, hsim⟩
    · rw [filter_all, if_neg h] at hy
      obtain ⟨hmem, hsim⟩ := ih hy
      exact ⟨List.mem_cons_of_mem _ hmem, hsim⟩

/-- No element produced by `filter_all` has a source key that was already in
the seen set. -/
theorem filter_all_key_not_seen {minSim : ℚ} :
    ∀ {l : List Candidate} {seen : List String} {y : ScoredDoc},
    y ∈ filter_all minSim l seen → sourceKey y.doc ∉ seen := by
  intro l
  induction l with
  | nil => intro seen y hy; simp [filter_all] at hy
  | cons c rest ih =>
    intro seen y hy
    by_cases h : minSim ≤ derivedSimilarity c ∧ sourceKey c ∉ seen
    · rw [filter_all, if_pos h] at hy
      rcases List.mem_cons.mp hy with h1 | h1
      · subst h1; exact h.2
      · intro hmem
        exact ih h1 (List.mem_cons_of_mem _ hmem)
    · rw [filter_all, if_neg h] at hy
      exact ih hy

/-- The source keys of the `filter_all` output are pairwise distinct. -/
theorem filter_all_keys_nodup (minSim : ℚ) :
    ∀ (l : List Candidate) (seen : List String),
    ((filter_all minSim l seen).map fun s => sourceKey s.doc).Nodup := by
  intro l
  induction l with
  | nil => intro seen; simp [filter_all]
  | cons c rest ih =>
    intro seen
    by_cases h : minSim ≤ derivedSimilarity c ∧ sourceKey c ∉ seen
    · rw [filter_all, if_pos h]
      simp only [List.map_cons, List.nodup_cons]
      refine ⟨?_, ih _⟩
      intro hmem
      obtain ⟨y, hy, hkey⟩ := List.mem_map.mp hmem
      exact filter_all_key_not_seen hy (hkey ▸ List.mem_cons_self _ _)
    · rw [filter_all, if_neg h]
      exact ih _

/-- Any accepted element is the earliest-accepted one for its source key:
every input candidate strictly before it that shares its key either falls
below the threshold or was already in the seen set. -/
theorem filter_all_earliest {minSim : ℚ} :
    ∀ {l : List Candidate} {seen : List String} {y : ScoredDoc},
    y ∈ filter_all minSim l seen →
    ∃ l1 l2, l = l1 ++ y.doc :: l2 ∧
      ∀ z ∈ l1, sourceKey z = sourceKey y.doc →
        derivedSimilarity z < minSim ∨ sourceKey z ∈ seen := by
  intro l
  induction l with
  | nil => intro seen y hy; simp [filter_all] at hy
  | cons c rest ih =>
    intro seen y hy
    by_cases h : minSim ≤ derivedSimilarity c ∧ sourceKey c ∉ seen
    · rw [filter_all, if_pos h] at hy
      rcases List.mem_cons.mp hy with h1 | h1
      · subst h1
        exact ⟨[], rest, rfl, by intro z hz; simp at hz⟩
      · obtain ⟨l1, l2, hsplit, hprev⟩ := ih h1
        refine ⟨c :: l1, l2, by rw [hsplit]; rfl, ?_⟩
        intro z hz hkey
        have hynot : sourceKey y.doc ∉ sourceKey c :: seen :=
          filter_all_key_not_seen h1
        rcases List.mem_cons.mp hz with h2 | h2
        · subst h2
          exact absurd (hkey ▸ List.mem_cons_self _ _) hynot
        · rcases hprev z h2 hkey with h3 | h3
          · exact Or.inl h3
          · rcases List.mem_cons.mp h3 with h4 | h4
            · exact absurd (hkey ▸ h4 ▸ List.mem_cons_self _ _) hynot
            · exact Or.inr h4
    · rw [filter_all, if_neg h] at hy
      obtain ⟨l1, l2, hsplit, hprev⟩ := ih hy
      refine ⟨c :: l1, l2, by rw [hsplit]; rfl, ?_⟩
      intro z hz hkey
      rcases List.mem_cons.mp hz with h2 | h2
      · subst h2
        rcases not_and_or.mp h with h3 | h3
        · exact Or.inl (lt_of_not_le h3)
        · exact Or.inr (not_not.mp h3)
      · exact hprev z h2 hkey

/-- `filter_all` preserves descending-similarity sortedness of the input. -/
theorem filter_all_sorted {minSim : ℚ} :
    ∀ {l : List Candidate} {seen : List String},
    l.Pairwise (fun a b => derivedSimilarity b ≤ derivedSimilarity a) →
    (filter_all minSim l seen).Pairwise
      (fun a b => b.similarity ≤ a.similarity) := by
  intro l
  induction l with
  | nil => intro seen _; simp [filter_all]
  | cons c rest ih =>
    intro seen hl
    obtain ⟨h1, h2⟩ := List.pairwise_cons.mp hl
    by_cases h : minSim ≤ derivedSimilarity c ∧ sourceKey c ∉ seen
    · rw [filter_all, if_pos h]
      refine List.pairwise_cons.mpr ⟨?_, ih h2⟩
      intro y hy
      obtain ⟨hmem, hsim⟩ := mem_filter_all hy
      simpa [hsim] using h1 y.doc hmem
    · rw [filter_all, if_neg h]
      exact ih h2

/-- `simLe` is transitive. -/
theorem simLe_trans : ∀ (a b c : ScoredDoc), simLe a b → simLe b c → simLe a c := by
  intro a b c hab hbc
  simp only [simLe, decide_eq_true_eq] at *
  exact le_trans hbc hab

/-- `simLe` is total. -/
theorem simLe_total : ∀ (a b : ScoredDoc), simLe a b || simLe b a := by
  intro a b
  simp only [simLe, Bool.or_eq_true, decide_eq_true_eq]
  exact le_total b.similarity a.similarity

/-! ### Path lemmas for `search_documents` -/

/-- On the vector path (data check passed, embedding succeeded, near-vector
search returned a well-formed non-empty candidate list), `search_documents`
returns exactly the filter/sort/truncate pipeline output, independent of the
keyword-search collaborator. -/
theorem search_documents_vector_eq (env : SearchEnv) (q : String)
    (lim? : Option Nat) (minSim? : Option ℚ) (docs : List Candidate)
    (e : List ℚ)
    (hdbg : debug_weaviate_data env = true)
    (hemb : env.embed = .ok e)
    (hnv : env.nearVector (effective_limit lim? q * 3) = .ok (some docs))
    (hne : docs ≠ []) :
    search_documents env q lim? minSim? =
      (vector_path (minSim?.getD similarity_threshold) (effective_limit lim? q)
        docs).map fun s => ⟨s.doc, some s.similarity⟩ := by
  cases docs with
  | nil => exact absurd rfl hne
  | cons d ds =>
    simp [search_documents, hdbg, hemb, hnv]

/-- On the fallback path (data check passed, embedding succeeded, near-vector
search returned a well-formed empty list), `search_documents` returns the
keyword-search response truncated to the limit, with no similarity values. -/
theorem search_documents_fallback_eq (env : SearchEnv) (q : String)
    (lim? : Option Nat) (minSim? : Option ℚ) (kdocs : List Candidate)
    (e : List ℚ)
    (hdbg : debug_weaviate_data env = true)
    (hemb : env.embed = .ok e)
    (hnv : env.nearVector (effective_limit lim? q * 3) = .ok (some []))
    (hkw : env.keyword (effective_limit lim? q) = .ok (some kdocs)) :
    search_documents env q lim? minSim? =
      (kdocs.take (effective_limit lim? q)).map fun c => ⟨c, none⟩ := by
  simp [search_documents, hdbg, hemb, hnv, hkw]

/-- Unfolding of `vector_path` through the `filter_dedup`/`filter_all`
bridge. -/
theorem vector_path_eq (minSim : ℚ) (limit : Nat) (docs : List Candidate) :
    vector_path minSim limit docs =
      (((filter_all minSim docs []).take (max limit 1)).mergeSort simLe).take
        limit := by
  rw [vector_path, filter_dedup_eq_take, Nat.sub_zero]

/-- Every element of the vector-path result was accepted by the (uncapped)
filter pass. -/
theorem mem_vector_path {minSim : ℚ} {limit : Nat} {docs : List Candidate}
    {y : ScoredDoc} (hy : y ∈ vector_path minSim limit docs) :
    y ∈ filter_all minSim docs [] := by
  rw [vector_path_eq] at hy
  have h1 := (List.take_sublist limit _).subset hy
  have h2 := List.mem_mergeSort.mp h1
  exact (List.take_sublist (max limit 1) _).subset h2

/-- The source keys of the vector-path result are pairwise distinct. -/
theorem vector_path_keys_nodup (minSim : ℚ) (limit : Nat)
    (docs : List Candidate) :
    ((vector_path minSim limit docs).map fun s => sourceKey s.doc).Nodup := by
  rw [vector_path_eq]
  have h0 := filter_all_keys_nodup minSim docs []
  have h1 : (((filter_all minSim docs []).take (max limit 1)).map
      fun s => sourceKey s.doc).Nodup :=
    h0.sublist ((List.take_sublist _ _).map _)
  have h2 : ((((filter_all minSim docs []).take (max limit 1)).mergeSort
      simLe).map fun s => sourceKey s.doc).Nodup :=
    ((List.mergeSort_perm _ simLe).map _).symm.nodup h1
  exact h2.sublist ((List.take_sublist _ _).map _)

/-- The vector-path result is sorted by similarity, descending. -/
theorem vector_path_sorted (minSim : ℚ) (limit : Nat)
    (docs : List Candidate) :
    (vector_path minSim limit docs).Pairwise
      (fun a b => b.similarity ≤ a.similarity) := by
  rw [vector_path_eq]
  have h1 := List.sorted_mergeSort simLe_trans simLe_total
    ((filter_all minSim docs []).take (max limit 1))
  have h2 := h1.sublist (List.take_sublist limit _)
  exact h2.imp fun hab => of_decide_eq_true hab

/-- The vector-path result never exceeds the limit. -/
theorem vector_path_length_le (minSim : ℚ) (limit : Nat)
    (docs : List Candidate) :
    (vector_path minSim limit docs).length ≤ limit := by
  rw [vector_path]
  exact List.length_take_le _ _

/-- When the raw candidate list arrives sorted best-first, the early-stopping
pipeline coincides with the conservative filter-all/rank/truncate reference. -/
theorem vector_path_eq_reference_of_sorted (minSim : ℚ) (limit : Nat)
    (docs : List Candidate)
    (hsorted : docs.Pairwise
      (fun a b => derivedSimilarity b ≤ derivedSimilarity a)) :
    vector_path minSim limit docs = reference_vector_path minSim limit docs := by
  rw [vector_path_eq, reference_vector_path]
  have hFA : (filter_all minSim docs []).Pairwise
      (fun a b => b.similarity ≤ a.similarity) := filter_all_sorted hsorted
  have hFA' : (filter_all minSim docs []).Pairwise (simLe · ·) :=
    hFA.imp fun h => decide_eq_true h
  have hFD' : ((filter_all minSim docs []).take (max limit 1)).Pairwise
      (simLe · ·) := hFA'.sublist (List.take_sublist _ _)
  rw [List.mergeSort_of_sorted hFD', List.mergeSort_of_sorted hFA',
    List.take_take]
  congr 1
  omega

/-- Folds over the same list with pointwise-equal step functions agree. -/
theorem foldl_congr_mem {α β : Type} (l : List β) (i : α) (f g : α → β → α)
    (h : ∀ a b, b ∈ l → f a b = g a b) : l.foldl f i = l.foldl g i := by
  induction l generalizing i with
  | nil => rfl
  | cons x xs ih =>
    rw [List.foldl_cons, List.foldl_cons, h i x (List.mem_cons_self x xs)]
    exact ih _ fun a b hb => h a b (List.mem_cons_of_mem _ hb)

/-! ### Evaluation lemmas for the concrete candidates -/

/-- `cA` has derived similarity 0.5. -/
theorem sim_cA : derivedSimilarity cA = 1/2 := by
  simp [derivedSimilarity, pyDistance, cA]
  norm_num

/-- `cB` has derived similarity 0.9. -/
theorem sim_cB : derivedSimilarity cB = 9/10 := by
  simp [derivedSimilarity, pyDistance, cB]
  norm_num

/-- `cA` and `cB` have different source keys. -/
theorem key_cB_ne_cA : sourceKey cB ≠ sourceKey cA := by decide

/-! ### Claim theorems -/

/-- Claim C5 (counterexample): the early-stopping vector path is NOT
extensionally equal to the conservative reference algorithm.  With a target of
1 and the index returning the weaker match first (`cA`, similarity 0.5, before
`cB`, similarity 0.9), the code returns `[cA]` while the reference returns
`[cB]`: the result is not the true top-1 by similarity. -/
theorem C5_counterexample :
    vector_path (3/10) 1 [cA, cB] ≠ reference_vector_path (3/10) 1 [cA, cB] := by
  have hfd : filter_dedup (3/10) 1 [cA, cB] [] 0 = [⟨cA, 1/2⟩] := by
    norm_num [filter_dedup, sim_cA]
  have hlhs : vector_path (3/10) 1 [cA, cB] = [⟨cA, 1/2⟩] := by
    simp [vector_path, hfd]
  have hFA : filter_all (3/10) [cA, cB] [] = [⟨cA, 1/2⟩, ⟨cB, 9/10⟩] := by
    norm_num [filter_all, sim_cA, sim_cB, key_cB_ne_cA]
  intro heq
  rw [hlhs, reference_vector_path, hFA] at heq
  have hmemB : (⟨cB, 9/10⟩ : ScoredDoc) ∈
      List.mergeSort [(⟨cA, 1/2⟩ : ScoredDoc), ⟨cB, 9/10⟩] simLe := by
    rw [List.mem_mergeSort]; simp
  have hsort := List.sorted_mergeSort simLe_trans simLe_total
    [(⟨cA, 1/2⟩ : ScoredDoc), ⟨cB, 9/10⟩]
  cases hL : List.mergeSort [(⟨cA, 1/2⟩ : ScoredDoc), ⟨cB, 9/10⟩] simLe with
  | nil => rw [hL] at hmemB; exact absurd hmemB (List.not_mem_nil _)
  | cons h t =>
    rw [hL] at heq hmemB hsort
    have h910 : (9:ℚ)/10 ≤ h.similarity := by
      rcases List.mem_cons.mp hmemB with h1 | h1
      · rw [← h1]
      · have h2 := (List.pairwise_cons.mp hsort).1 _ h1
        simpa [simLe] using h2
    have hhead : (⟨cA, 1/2⟩ : ScoredDoc) = h := by
      simpa using heq
    rw [← hhead] at h910
    norm_num at h910

/-- Claim C5 (amended): the vector-path result equals the conservative
reference (filter all eligible deduplicated candidates, sort by similarity
descending, truncate to the target) whenever the index returns candidates in
nonincreasing order of derived similarity; without that best-first assumption
the early stop can discard higher-similarity candidates that appear later, so
the equality does not hold unconditionally. -/
theorem C5_refines_reference_when_best_first (env : SearchEnv) (q : String)
    (lim? : Option Nat) (minSim? : Option ℚ) (docs : List Candidate)
    (e : List ℚ)
    (hdbg : debug_weaviate_data env = true)
    (hemb : env.embed = .ok e)
    (hnv : env.nearVector (effective_limit lim? q * 3) = .ok (some docs))
    (hne : docs ≠ [])
    (hsorted : docs.Pairwise
      (fun a b => derivedSimilarity b ≤ derivedSimilarity a)) :
    search_documents env q lim? minSim? =
      (reference_vector_path (minSim?.getD similarity_threshold)
        (effective_limit lim? q) docs).map
          fun s => ⟨s.doc, some s.similarity⟩ := by
  rw [search_documents_vector_eq env q lim? minSim? docs e hdbg hemb hnv hne,
    vector_path_eq_reference_of_sorted _ _ _ hsorted]

/-- Witness for C5: the amended theorem applied to a concrete best-first
environment. -/
theorem C5_witness :
    search_documents
        ⟨.ok ["SpiritualText"], .ok 1, true, .ok [1],
         fun _ => .ok (some [cB, cA]), fun _ => .ok (some [])⟩
        "karma" (some 1) (some (3/10)) =
      (reference_vector_path (3/10) 1 [cB, cA]).map
        fun s => ⟨s.doc, some s.similarity⟩ :=
  C5_refines_reference_when_best_first _ "karma" (some 1) (some (3/10))
    [cB, cA] [1] rfl rfl rfl (by decide)
    (by norm_num [sim_cA, sim_cB])

/-- Claim C8: on the vector path the returned ResultSet contains at most one
entry per distinct `(source, page)` pair, and the entry that survives for a
given source key is the earliest-accepted one: every candidate appearing
strictly earlier in the index order with the same source key fell below the
similarity threshold. -/
theorem C8_dedup_invariant (env : SearchEnv) (q : String)
    (lim? : Option Nat) (minSim? : Option ℚ) (docs : List Candidate)
    (e : List ℚ)
    (hdbg : debug_weaviate_data env = true)
    (hemb : env.embed = .ok e)
    (hnv : env.nearVector (effective_limit lim? q * 3) = .ok (some docs))
    (hne : docs ≠ []) :
    ((search_documents env q lim? minSim?).map
      fun r => (r.doc.source, r.doc.page)).Nodup ∧
    ∀ r ∈ search_documents env q lim? minSim?,
      ∃ l1 l2, docs = l1 ++ r.doc :: l2 ∧
        ∀ z ∈ l1, sourceKey z = sourceKey r.doc →
          derivedSimilarity z < minSim?.getD similarity_threshold := by
  rw [search_documents_vector_eq env q lim? minSim? docs e hdbg hemb hnv hne]
  constructor
  · have hkeys := vector_path_keys_nodup (minSim?.getD similarity_threshold)
      (effective_limit lim? q) docs
    have hEq : ((vector_path (minSim?.getD similarity_threshold)
        (effective_limit lim? q) docs).map fun s => sourceKey s.doc) =
        (((vector_path (minSim?.getD similarity_threshold)
          (effective_limit lim? q) docs).map
            fun s => (s.doc.source, s.doc.page)).map
              fun p => p.1 ++ "-" ++ toString p.2) := by
      rw [List.map_map]; rfl
    rw [hEq] at hkeys
    rw [List.map_map]
    exact hkeys.of_map _
  · intro r hr
    obtain ⟨s, hs, rfl⟩ := List.mem_map.mp hr
    obtain ⟨l1, l2, hsplit, hprev⟩ := filter_all_earliest (mem_vector_path hs)
    refine ⟨l1, l2, hsplit, ?_⟩
    intro z hz hkey
    rcases hprev z hz hkey with h | h
    · exact h
    · exact absurd h (List.not_mem_nil _)

/-- Witness for C8: the theorem applied to the concrete environment `envA`. -/
theorem C8_witness :
    ((search_documents envA "karma" (some 5) (some (3/10))).map
      fun r => (r.doc.source, r.doc.page)).Nodup ∧
    ∀ r ∈ search_documents envA "karma" (some 5) (some (3/10)),
      ∃ l1 l2, [cA, cB] = l1 ++ r.doc :: l2 ∧
        ∀ z ∈ l1, sourceKey z = sourceKey r.doc →
          derivedSimilarity z < (some (3/10) : Option ℚ).getD
            similarity_threshold :=
  C8_dedup_invariant envA "karma" (some 5) (some (3/10)) [cA, cB] [1]
    rfl rfl rfl (by decide)

/-- Claim C9: every ResultSet produced on the vector path is sorted by
similarity in descending order, every entry carries a similarity value, and
the length never exceeds the retrieval target. -/
theorem C9_sorted_and_bounded (env : SearchEnv) (q : String)
    (lim? : Option Nat) (minSim? : Option ℚ) (docs : List Candidate)
    (e : List ℚ)
    (hdbg : debug_weaviate_data env = true)
    (hemb : env.embed = .ok e)
    (hnv : env.nearVector (effective_limit lim? q * 3) = .ok (some docs))
    (hne : docs ≠ []) :
    (search_documents env q lim? minSim?).length ≤ effective_limit lim? q ∧
    (search_documents env q lim? minSim?).Pairwise
      (fun a b => b.similarity.getD 0 ≤ a.similarity.getD 0) ∧
    ∀ r ∈ search_documents env q lim? minSim?, r.similarity.isSome := by
  rw [search_documents_vector_eq env q lim? minSim? docs e hdbg hemb hnv hne]
  refine ⟨?_, ?_, ?_⟩
  · rw [List.length_map]
    exact vector_path_length_le _ _ _
  · rw [List.pairwise_map]
    exact (vector_path_sorted _ _ _).imp fun h => by simpa using h
  · intro r hr
    obtain ⟨s, _, rfl⟩ := List.mem_map.mp hr
    rfl

/-- Witness for C9: the theorem applied to the concrete environment `envA`. -/
theorem C9_witness :
    (search_documents envA "karma" (some 5) (some (3/10))).length ≤
      effective_limit (some 5) "karma" ∧
    (search_documents envA "karma" (some 5) (some (3/10))).Pairwise
      (fun a b => b.similarity.getD 0 ≤ a.similarity.getD 0) ∧
    ∀ r ∈ search_documents envA "karma" (some 5) (some (3/10)),
      r.similarity.isSome :=
  C9_sorted_and_bounded envA "karma" (some 5) (some (3/10)) [cA, cB] [1]
    rfl rfl rfl (by decide)

/-- Claim C1 (counterexample): a transport error from the vector index does
NOT propagate as an error value: `search_documents` catches every exception
and returns the empty list, exactly the value it returns when all services
are reachable and nothing matches.  An error case is therefore reported as an
empty result. -/
theorem C1_counterexample :
    search_documents envErr "karma" none none = [] ∧
    search_documents envEmpty "karma" none none = [] ∧
    envErr.nearVector (effective_limit none "karma" * 3) =
      .error "connection refused" :=
  ⟨rfl, rfl, rfl⟩

/-- Claim C1 (amended): any exception raised by the embedding client, the
near-vector search, or the keyword fallback during `search_documents` is
caught by the surrounding handler and surfaced as an empty list; no error
value reaches the caller, so an error is indistinguishable from an empty
result at the search interface. -/
theorem C1_errors_swallowed (env : SearchEnv) (q : String)
    (lim? : Option Nat) (minSim? : Option ℚ) (msg : String) :
    (env.embed = .error msg → search_documents env q lim? minSim? = []) ∧
    (env.nearVector (effective_limit lim? q * 3) = .error msg →
      search_documents env q lim? minSim? = []) ∧
    (env.nearVector (effective_limit lim? q * 3) = .ok (some []) →
      env.keyword (effective_limit lim? q) = .error msg →
      search_documents env q lim? minSim? = []) := by
  refine ⟨fun h => ?_, fun h => ?_, fun h1 h2 => ?_⟩
  · cases hdbg : debug_weaviate_data env <;>
      simp [search_documents, hdbg, h]
  · cases hdbg : debug_weaviate_data env <;>
      cases hemb : env.embed <;>
      simp [search_documents, hdbg, hemb, h]
  · cases hdbg : debug_weaviate_data env <;>
      cases hemb : env.embed <;>
      simp [search_documents, hdbg, hemb, h1, h2]

/-- Witness for C1: the amended theorem applied to the concrete failing
environment `envErr`. -/
theorem C1_witness : search_documents envErr "karma" none none = [] :=
  (C1_errors_swallowed envErr "karma" none none "connection refused").2.1 rfl

/-- Claim C2 (counterexample): a caller-supplied limit is NOT clamped to
`[1, maxSources]`: with `L = 20` the effective limit is 20, not
`clamp(20,1,15) = 15`, and with `L = 0` it is 0, not `clamp(0,1,15) = 1`. -/
theorem C2_counterexample :
    effective_limit (some 20) "karma" ≠ min (max 20 1) max_limit ∧
    effective_limit (some 0) "karma" ≠ min (max 0 1) max_limit := by
  decide

/-- Claim C2 (amended): a caller-supplied limit takes precedence and bypasses
complexity scoring, but is used verbatim with no clamping; only the
interactive-mode `sources <n>` command validates its argument, accepting `n`
exactly when `1 ≤ n ≤ maxSources` and otherwise leaving the previous override
unchanged. -/
theorem C2_limit_override_unclamped :
    (∀ (L : Nat) (q : String), effective_limit (some L) q = L) ∧
    (∀ (q : String), effective_limit none q = determine_search_complexity q) ∧
    (∀ (cur : Option Nat) (n : Nat),
      (1 ≤ n ∧ n ≤ max_limit → sources_command cur n = some n) ∧
      (¬ (1 ≤ n ∧ n ≤ max_limit) → sources_command cur n = cur)) := by
  refine ⟨fun L q => rfl, fun q => rfl, fun cur n => ⟨fun h => ?_, fun h => ?_⟩⟩
  · rw [sources_command, if_pos h]
  · rw [sources_command, if_neg h]

/-- Witness for C2: the amended theorem applied at concrete inputs. -/
theorem C2_witness :
    effective_limit (some 7) "x" = 7 ∧ sources_command none 20 = none :=
  ⟨C2_limit_override_unclamped.1 7 "x",
   (C2_limit_override_unclamped.2.2 none 20).2 (by decide)⟩

/-- `cNoDist` (no distance key, certainty 0.9) gets derived similarity 0. -/
theorem sim_cNoDist : derivedSimilarity cNoDist = 0 := by
  simp [derivedSimilarity, pyDistance, cNoDist]

/-- Claim C3 (counterexample): for a candidate whose `_additional` map lacks
the `distance` key entirely but carries certainty 0.9, the code does NOT fall
back to certainty: `dict.get("distance", 1.0)` yields the number 1.0, so the
derived similarity is `1 - 1.0 = 0`, not `0.9`. -/
theorem C3_counterexample :
    cNoDist.distance = none ∧ cNoDist.certainty = some (9/10) ∧
    derivedSimilarity cNoDist = 0 ∧ derivedSimilarity cNoDist ≠ 9/10 := by
  refine ⟨rfl, rfl, sim_cNoDist, ?_⟩
  rw [sim_cNoDist]
  norm_num

/-- Claim C3 (amended): the derived similarity is `1 - d` when a numeric
distance `d` is present; it equals the certainty (defaulting to 0 when
certainty is absent) only when the distance key is present with a null value;
and it is `1 - 1.0 = 0`, regardless of any certainty, when the distance key
is absent from the response. -/
theorem C3_similarity_derivation (c : Candidate) :
    (∀ d, c.distance = some (some d) → derivedSimilarity c = 1 - d) ∧
    (c.distance = some none → derivedSimilarity c = c.certainty.getD 0) ∧
    (c.distance = none → derivedSimilarity c = 0) := by
  refine ⟨fun d hd => ?_, fun hd => ?_, fun hd => ?_⟩
  · simp [derivedSimilarity, pyDistance, hd]
  · simp [derivedSimilarity, pyDistance, pyCertainty, hd]
  · simp [derivedSimilarity, pyDistance, hd]

/-- Witness for C3: the amended theorem applied to concrete candidates. -/
theorem C3_witness :
    derivedSimilarity cA = 1 - 1/2 ∧ derivedSimilarity cNoDist = 0 :=
  ⟨(C3_similarity_derivation cA).1 (1/2) rfl,
   (C3_similarity_derivation cNoDist).2.2 rfl⟩

/-- Claim C4: the keyword fallback fires exactly when the raw vector search
returns zero candidates.  In that case the keyword search is issued with the
target limit, its response is returned verbatim (whenever it honors the
limit; in general truncated by `[:limit]`) and no entry carries a similarity
value.  When raw candidates exist, the result is the vector pipeline's output
and is independent of the keyword collaborator — in particular, when
filtering leaves nothing the empty list is returned without any fallback. -/
theorem C4_fallback_trigger (env : SearchEnv) (q : String)
    (lim? : Option Nat) (minSim? : Option ℚ) (e : List ℚ)
    (hdbg : debug_weaviate_data env = true)
    (hemb : env.embed = .ok e) :
    (∀ kdocs, env.nearVector (effective_limit lim? q * 3) = .ok (some []) →
      env.keyword (effective_limit lim? q) = .ok (some kdocs) →
      search_documents env q lim? minSim? =
        (kdocs.take (effective_limit lim? q)).map (fun c => ⟨c, none⟩) ∧
      (kdocs.length ≤ effective_limit lim? q →
        search_documents env q lim? minSim? =
          kdocs.map fun c => ⟨c, none⟩) ∧
      ∀ r ∈ search_documents env q lim? minSim?, r.similarity = none) ∧
    (∀ docs, docs ≠ [] →
      env.nearVector (effective_limit lim? q * 3) = .ok (some docs) →
      search_documents env q lim? minSim? =
        (vector_path (minSim?.getD similarity_threshold)
          (effective_limit lim? q) docs).map
            (fun s => ⟨s.doc, some s.similarity⟩) ∧
      ∀ kw, search_documents { env with keyword := kw } q lim? minSim? =
        search_documents env q lim? minSim?) := by
  constructor
  · intro kdocs hnv hkw
    have heq := search_documents_fallback_eq env q lim? minSim? kdocs e
      hdbg hemb hnv hkw
    refine ⟨heq, fun hlen => ?_, fun r hr => ?_⟩
    · rw [heq, List.take_of_length_le hlen]
    · rw [heq] at hr
      obtain ⟨c, _, rfl⟩ := List.mem_map.mp hr
      rfl
  · intro docs hne hnv
    have heq := search_documents_vector_eq env q lim? minSim? docs e
      hdbg hemb hnv hne
    refine ⟨heq, fun kw => ?_⟩
    have heq2 := search_documents_vector_eq { env with keyword := kw } q
      lim? minSim? docs e hdbg hemb hnv hne
    rw [heq, heq2]

/-- Witness for C4: the theorem applied to the concrete fallback environment
`envFallback`, whose vector search returns zero raw candidates. -/
theorem C4_witness :
    search_documents envFallback "karma" (some 2) (some (3/10)) =
      ([cA].take (effective_limit (some 2) "karma")).map (fun c => ⟨c, none⟩) :=
  ((C4_fallback_trigger envFallback "karma" (some 2) (some (3/10)) [1]
    rfl rfl).1 [cA] rfl rfl).1

/-- Claim C6 (counterexample): the scorer does NOT count every occurrence:
in the query "compare compare" the complex keyword "compare" occurs twice,
yet the score is 2 (one `+2` contribution), not the 4 the claim predicts. -/
theorem C6_counterexample :
    complexity_score "compare compare" = 2 ∧
    complexity_score "compare compare" ≠ 4 := by
  decide

/-- Claim C6 (amended): each keyword contributes its weight at most once,
regardless of how often it occurs: the score is a function of which keywords
are contained in the lowercased query, so two queries containing exactly the
same keywords (e.g. one with a keyword repeated) receive the same score. -/
theorem C6_score_counts_presence_once (q1 q2 : String)
    (hc : ∀ kw ∈ complex_keywords,
      strContains (toLowerStr q1) kw = strContains (toLowerStr q2) kw)
    (hb : ∀ kw ∈ broad_keywords,
      strContains (toLowerStr q1) kw = strContains (toLowerStr q2) kw)
    (hs : ∀ kw ∈ specific_keywords,
      strContains (toLowerStr q1) kw = strContains (toLowerStr q2) kw) :
    complexity_score q1 = complexity_score q2 := by
  have h1 := foldl_congr_mem complex_keywords (0 : Int)
    (fun s kw => if strContains (toLowerStr q1) kw then s + 2 else s)
    (fun s kw => if strContains (toLowerStr q2) kw then s + 2 else s)
    (fun a b hb' => by simp only [hc b hb'])
  have h2 := foldl_congr_mem broad_keywords
    (complex_keywords.foldl
      (fun s kw => if strContains (toLowerStr q2) kw then s + 2 else s)
      (0 : Int))
    (fun s kw => if strContains (toLowerStr q1) kw then s + 1 else s)
    (fun s kw => if strContains (toLowerStr q2) kw then s + 1 else s)
    (fun a b hb' => by simp only [hb b hb'])
  have h3 := foldl_congr_mem specific_keywords
    (broad_keywords.foldl
      (fun s kw => if strContains (toLowerStr q2) kw then s + 1 else s)
      (complex_keywords.foldl
        (fun s kw => if strContains (toLowerStr q2) kw then s + 2 else s)
        (0 : Int)))
    (fun s kw => if strContains (toLowerStr q1) kw then s - 1 else s)
    (fun s kw => if strContains (toLowerStr q2) kw then s - 1 else s)
    (fun a b hb' => by simp only [hs b hb'])
  simp only [complexity_score]
  rw [h1, h2, h3]

/-- Witness for C6: "compare compare" and "compare" contain exactly the same
keywords, so they score identically. -/
theorem C6_witness :
    complexity_score "compare compare" = complexity_score "compare" :=
  C6_score_counts_presence_once "compare compare" "compare"
    (by decide) (by decide) (by decide)

/-- Claim C7 (counterexample): the Scenario-B query scores 7, not 5: the spec
overlooked that "between" is also in the complex keyword list (complex
matches "compare", "different", "between" contribute +6; broad match "karma"
contributes +1). -/
theorem C7_counterexample :
    complexity_score
      "compare the different interpretations of karma between the Gita and the Puranas"
      = 7 ∧ (7 : Int) ≠ 5 := by
  constructor
  · decide
  · decide

/-- Claim C7 (amended): for the Scenario-B query the complexity score is 7
(complex keywords "compare", "different", "between" give +6, broad keyword
"karma" gives +1) and the resulting retrieval target is 12, as the claim
states. -/
theorem C7_scenario_b :
    complexity_score
      "compare the different interpretations of karma between the Gita and the Puranas"
      = 7 ∧
    determine_search_complexity
      "compare the different interpretations of karma between the Gita and the Puranas"
      = 12 := by
  constructor
  · decide
  · decide

/-- Claim C10: when the index's document class is absent, the index holds zero
documents, or any step of the pre-search data check raises, the data check
reports failure and `search_documents` returns the empty list — for every
possible vector-search and keyword-search response, i.e. without consulting
either search, making the situation indistinguishable from a query with no
matches. -/
theorem C10_data_check_gates_search (env : SearchEnv) (q : String)
    (lim? : Option Nat) (minSim? : Option ℚ)
    (h : (∃ m, env.schemaClasses = .error m) ∨
         (∃ cs, env.schemaClasses = .ok cs ∧
           cs.contains "SpiritualText" = false) ∨
         (∃ m, env.docCount = .error m) ∨
         env.docCount = .ok 0 ∨
         env.sampleOk = false) :
    debug_weaviate_data env = false ∧
    search_documents env q lim? minSim? = [] := by
  have hdbg : debug_weaviate_data env = false := by
    rcases h with ⟨m, hm⟩ | ⟨cs, hcs, hc⟩ | ⟨m, hm⟩ | h0 | hs
    · simp [debug_weaviate_data, hm]
    · have hmem : "SpiritualText" ∉ cs := by simpa using hc
      simp [debug_weaviate_data, hcs, hmem]
    · cases hsc : env.schemaClasses with
      | error m2 => simp [debug_weaviate_data, hsc]
      | ok cs =>
        cases hcont : cs.contains "SpiritualText" <;>
          simp [debug_weaviate_data, hsc, hcont, hm]
    · cases hsc : env.schemaClasses with
      | error m2 => simp [debug_weaviate_data, hsc]
      | ok cs =>
        cases hcont : cs.contains "SpiritualText" <;>
          simp [debug_weaviate_data, hsc, hcont, h0]
    · cases hsc : env.schemaClasses with
      | error m2 => simp [debug_weaviate_data, hsc]
      | ok cs =>
        cases hcont : cs.contains "SpiritualText" with
        | false =>
          have hmem : "SpiritualText" ∉ cs := by simpa using hcont
          simp [debug_weaviate_data, hsc, hmem]
        | true =>
          cases hdc : env.docCount with
          | error m2 => simp [debug_weaviate_data, hsc, hcont, hdc]
          | ok n =>
            by_cases hn : n = 0 <;>
              simp [debug_weaviate_data, hsc, hcont, hdc, hn, hs]
  exact ⟨hdbg, by simp [search_documents, hdbg]⟩

/-- Witness for C10: the theorem applied to the zero-document environment
`envNoData`. -/
theorem C10_witness :
    debug_weaviate_data envNoData = false ∧
    search_documents envNoData "karma" none none = [] :=
  C10_data_check_gates_search envNoData "karma" none none
    (Or.inr (Or.inr (Or.inr (Or.inl rfl))))

end RagSystem
